import Mathlib

/-!
Verification development for the veezy Session Orchestrator
(`apps/api/src/voice-agent/voice-agent.service.ts`) and the booking
capability-token resolver (`apps/api/src/booking/booking.service.ts`).

The TypeScript service methods are shallowly embedded as pure Lean
functions over an explicit relational state (`Db`).  Each remote call to
the Python voice-agent service (`fetch`) is modelled as an oracle input
of type `RemoteCall α`: the call either returned an HTTP response with
`ok = true` carrying payload `a` (`RemoteCall.ok a`), returned a response
with `ok = false` (`RemoteCall.httpError`), or the `fetch` promise itself
rejected — network failure or timeout (`RemoteCall.netError`).
Timestamps (`new Date()`, `Date.now()`) are passed in as `Nat` arguments.
-/

namespace Veezy

/-- Booking lifecycle status, after the Prisma `BookingStatus` enum. -/
inductive BookingStatus where
  | PENDING
  | CONFIRMED
  | COMPLETED
  | CANCELLED
  | EXPIRED
deriving DecidableEq, Repr

/-- Agent record (only the fields the orchestrator reads). -/
structure Agent where
  id : String
  name : String
  knowledge : Option String
deriving DecidableEq, Repr

/-- Lead record (only the fields the orchestrator reads). -/
structure Lead where
  name : String
  email : String
deriving DecidableEq, Repr

/-- A Booking row, with its included `agent` and `lead` relations inlined. -/
structure Booking where
  id : String
  expiresAt : Nat
  status : BookingStatus
  meetingToken : String
  agent : Agent
  lead : Lead
deriving DecidableEq, Repr

/-- Audit metadata stored on a VoiceSession at creation. -/
structure SessionMetadata where
  agentName : String
  leadName : String
  leadEmail : String
deriving DecidableEq, Repr

/-- A VoiceSession row (the spec's SessionRecord).  `sessionId` is the
remote provider's session id; `transcript` and `durationSeconds` are
nullable columns; `endedAt` is null until the session is ended. -/
structure VoiceSession where
  id : String
  bookingId : String
  sessionId : String
  livekitRoomName : String
  status : String
  transcript : Option String
  durationSeconds : Option Nat
  endedAt : Option Nat
  metadata : Option SessionMetadata
deriving DecidableEq, Repr

/-- The relational database state: the `bookings` and `voice_sessions`
tables. -/
structure Db where
  bookings : List Booking
  sessions : List VoiceSession
deriving DecidableEq, Repr

/-- Models `prisma.booking.findUnique({where: {id}})`. -/
def Db.findBooking (db : Db) (bookingId : String) : Option Booking :=
  db.bookings.find? (fun b => b.id == bookingId)

/-- Models `prisma.booking.findUnique({where: {meetingToken}})`. -/
def Db.findBookingByToken (db : Db) (token : String) : Option Booking :=
  db.bookings.find? (fun b => b.meetingToken == token)

/-- The singular `voiceSession` include of a booking: the session row
whose `bookingId` references the booking (one-to-one relation). -/
def Db.sessionOfBooking (db : Db) (bookingId : String) : Option VoiceSession :=
  db.sessions.find? (fun s => s.bookingId == bookingId)

/-- Models `prisma.voiceSession.findFirst({where: {bookingId, status: 'active'}})`. -/
def Db.activeSessionOfBooking (db : Db) (bookingId : String) :
    Option VoiceSession :=
  db.sessions.find? (fun s => s.bookingId == bookingId && s.status == "active")

/-- Models `prisma.voiceSession.findUnique({where: {id}})`. -/
def Db.findSession (db : Db) (sessionId : String) : Option VoiceSession :=
  db.sessions.find? (fun s => s.id == sessionId)

/-- Models `prisma.voiceSession.delete({where: {id}})`. -/
def Db.deleteSession (db : Db) (sessionId : String) : Db :=
  { db with sessions := db.sessions.filter (fun s => !(s.id == sessionId)) }

/-- Models `prisma.voiceSession.create(...)`: append the new row. -/
def Db.insertSession (db : Db) (vs : VoiceSession) : Db :=
  { db with sessions := db.sessions ++ [vs] }

/-- Models `prisma.voiceSession.update({where: {id}, data: ...})`. -/
def Db.updateSession (db : Db) (sessionId : String)
    (f : VoiceSession → VoiceSession) : Db :=
  { db with
    sessions := db.sessions.map (fun s => if s.id == sessionId then f s else s) }

/-- Models `prisma.booking.update({where: {id}, data: {status}})`. -/
def Db.updateBookingStatus (db : Db) (bookingId : String)
    (st : BookingStatus) : Db :=
  { db with
    bookings :=
      db.bookings.map
        (fun b => if b.id == bookingId then { b with status := st } else b) }

/-- The NestJS HTTP exceptions the service throws.  `gone` (NestJS
`GoneException`, HTTP 410) is part of the available taxonomy although the
service never raises it. -/
inductive ApiError where
  | notFound (msg : String)
  | conflict (msg : String)
  | gone (msg : String)
  | serviceUnavailable (msg : String)
  | internalServerError (msg : String)
deriving DecidableEq, Repr

/-- Is this error a `GoneException`? -/
def ApiError.isGone : ApiError → Bool
  | .gone _ => true
  | _ => false

/-- Is this error a `ServiceUnavailableException`? -/
def ApiError.isUnavailable : ApiError → Bool
  | .serviceUnavailable _ => true
  | _ => false

/-- Outcome of one remote `fetch` call: HTTP 2xx with parsed payload,
non-ok HTTP response, or a rejected promise (network failure / timeout). -/
inductive RemoteCall (α : Type) where
  | ok (a : α)
  | httpError
  | netError
deriving DecidableEq, Repr

/-- Payload of `POST /sessions/start` (interface `PythonSessionResponse`). -/
structure PythonSessionResponse where
  session_id : String
  room_name : String
  participant_token : String
deriving DecidableEq, Repr

/-- Payload of `GET /sessions/:id/status` (interface `VoiceSessionStatus`).
`transcriptSoFar` models the source's `partial_transcript` field. -/
structure RemoteSessionStatus where
  active : Bool
  duration_seconds : Nat
  transcriptSoFar : String
deriving DecidableEq, Repr

/-- Payload of `POST /sessions/:id/end` (interface `VoiceSessionEnd`);
`transcript` and `duration` may be absent in the JSON. -/
structure RemoteSessionEnd where
  success : Bool
  transcript : Option String
  duration : Option Nat
deriving DecidableEq, Repr

/-- Value returned by `startVoiceSession` on success. -/
structure StartResult where
  roomToken : String
  roomUrl : String
  sessionId : String
  roomName : String
deriving DecidableEq, Repr

/-- Lines 48–78 of `startVoiceSession`: if the booking has an existing
voice session, probe the Python service for its liveness.  A confirmed
live session raises `Conflict` (rethrown past the catch); every other
probe outcome — ok-but-inactive, non-ok response, or thrown fetch —
deletes the stale row and lets the start proceed. -/
def staleSessionCheck (db : Db) (bookingId : String)
    (probe : RemoteCall Bool) : Except ApiError Db :=
  match db.sessionOfBooking bookingId with
  | none => .ok db
  | some vs =>
    match probe with
    | .ok true =>
        .error (.conflict "Voice session already active for this booking")
    | .ok false => .ok (db.deleteSession vs.id)
    | .httpError => .ok (db.deleteSession vs.id)
    | .netError => .ok (db.deleteSession vs.id)

/-- The VoiceSession row persisted by `startVoiceSession` (lines 105–117):
status `active`, fresh id, the remote's session id and room name, and
audit metadata naming the agent and lead. -/
def createdSession (booking : Booking) (bookingId freshId : String)
    (data : PythonSessionResponse) : VoiceSession :=
  { id := freshId
    bookingId := bookingId
    sessionId := data.session_id
    livekitRoomName := data.room_name
    status := "active"
    transcript := none
    durationSeconds := none
    endedAt := none
    metadata := some
      { agentName := booking.agent.name
        leadName := booking.lead.name
        leadEmail := booking.lead.email } }

/-- Lines 84–136 of `startVoiceSession`: call `POST /sessions/start` and,
on success, persist the new VoiceSession row.  A non-ok response raises
`ServiceUnavailable`; a rejected fetch falls to the generic catch and
raises `InternalServerError`.  Neither failure touches the database. -/
def createRemoteAndPersist (db : Db) (booking : Booking)
    (bookingId freshId : String)
    (create : RemoteCall PythonSessionResponse) :
    Except ApiError StartResult × Db :=
  match create with
  | .httpError =>
      (.error (.serviceUnavailable
        "Python voice agent service unavailable. Please try again."), db)
  | .netError =>
      (.error (.internalServerError
        "Failed to start voice session. Check logs."), db)
  | .ok data =>
      let vs : VoiceSession := createdSession booking bookingId freshId data
      (.ok { roomToken := data.participant_token
             roomUrl := data.room_name
             sessionId := freshId
             roomName := data.room_name },
       db.insertSession vs)

/-- Models `VoiceAgentService.startVoiceSession(bookingId)`.  `now` is the
current time, `probe` the outcome of the liveness probe on any existing
session, `create` the outcome of the remote create, `freshId` the id the
database assigns the new VoiceSession row. -/
def startVoiceSession (db : Db) (bookingId : String) (now : Nat)
    (probe : RemoteCall Bool) (create : RemoteCall PythonSessionResponse)
    (freshId : String) : Except ApiError StartResult × Db :=
  match db.findBooking bookingId with
  | none => (.error (.notFound "Booking not found or expired"), db)
  | some booking =>
    if booking.expiresAt < now then
      (.error (.notFound "Booking not found or expired"), db)
    else
      match staleSessionCheck db bookingId probe with
      | .error e => (.error e, db)
      | .ok db1 => createRemoteAndPersist db1 booking bookingId freshId create

/-- Value returned by `getActiveSessionByBooking`: either a rejoin
credential, or the session metadata flagged `needsRestart: true`. -/
inductive ActiveSessionResult where
  | rejoin (roomToken roomUrl sessionId roomName status : String)
  | needsRestart (sessionId roomName status : String)
deriving DecidableEq, Repr

/-- Models `VoiceAgentService.getActiveSessionByBooking(bookingId)`.  `rejoinTok`
is the outcome of `GET /sessions/:id/rejoin-token`.  Read-only: no
database mutation. -/
def getActiveSessionByBooking (db : Db) (bookingId : String)
    (rejoinTok : RemoteCall String) : Except ApiError ActiveSessionResult :=
  match db.activeSessionOfBooking bookingId with
  | none =>
      .error (.notFound "No active voice session found for this booking")
  | some vs =>
    match rejoinTok with
    | .ok tok =>
        .ok (.rejoin tok vs.livekitRoomName vs.id vs.livekitRoomName vs.status)
    | .httpError => .ok (.needsRestart vs.id vs.livekitRoomName vs.status)
    | .netError => .ok (.needsRestart vs.id vs.livekitRoomName vs.status)

/-- Value returned by `getSessionStatus` on success. -/
structure SessionStatusResult where
  active : Bool
  duration : Nat
  transcript : String
  status : String
deriving DecidableEq, Repr

/-- Models `VoiceAgentService.getSessionStatus(sessionId)`.  `remoteStatus` is
the outcome of `GET /sessions/:id/status`: a non-ok response raises
`ServiceUnavailable` (rethrown past the catch); a rejected fetch falls to
the generic catch and raises `InternalServerError`.  Read-only. -/
def getSessionStatus (db : Db) (sessionId : String)
    (remoteStatus : RemoteCall RemoteSessionStatus) :
    Except ApiError SessionStatusResult :=
  match db.findSession sessionId with
  | none => .error (.notFound "Voice session not found")
  | some vs =>
    match remoteStatus with
    | .httpError =>
        .error (.serviceUnavailable
          "Python voice agent service unavailable. Please try again.")
    | .netError =>
        .error (.internalServerError "Failed to get session status. Check logs.")
    | .ok data =>
        .ok { active := data.active
              duration := data.duration_seconds
              transcript := data.transcriptSoFar
              status := vs.status }

/-- Value returned by `endVoiceSession`. -/
structure EndResult where
  success : Bool
  transcript : String
  duration : Nat
deriving DecidableEq, Repr

/-- The row update applied by `endVoiceSession` (lines 260–268):
`endedAt` set, `transcript: transcript || voiceSession.transcript`,
`durationSeconds: duration || voiceSession.durationSeconds` (JavaScript
falsiness: the empty string and `0` fall back to the stored column),
status `completed`. -/
def completeSessionRow (now : Nat) (transcript : String) (duration : Nat)
    (s : VoiceSession) : VoiceSession :=
  { s with
    endedAt := some now
    transcript := if transcript == "" then s.transcript else some transcript
    durationSeconds :=
      if duration == 0 then s.durationSeconds else some duration
    status := "completed" }

/-- Models `VoiceAgentService.endVoiceSession(sessionId)`.  `remoteEnd` is the
outcome of `POST /sessions/:id/end`; on a non-ok response or a rejected
fetch the service proceeds with empty transcript and zero duration.  The
VoiceSession row is then updated — `transcript: transcript ||
voiceSession.transcript`, `durationSeconds: duration ||
voiceSession.durationSeconds`, status `completed`, `endedAt` set — and
the owning booking's status is set to `COMPLETED`, regardless of the
remote outcome. -/
def endVoiceSession (db : Db) (sessionId : String) (now : Nat)
    (remoteEnd : RemoteCall RemoteSessionEnd) :
    Except ApiError EndResult × Db :=
  match db.findSession sessionId with
  | none => (.error (.notFound "Voice session not found"), db)
  | some vs =>
    let captured : String × Nat :=
      match remoteEnd with
      | .ok data => (data.transcript.getD "", data.duration.getD 0)
      | .httpError => ("", 0)
      | .netError => ("", 0)
    let transcript := captured.1
    let duration := captured.2
    let db1 := db.updateSession sessionId
      (completeSessionRow now transcript duration)
    let db2 := db1.updateBookingStatus vs.bookingId .COMPLETED
    (.ok { success := true, transcript := transcript, duration := duration },
     db2)

/-- Value returned by `BookingService.findByMeetingToken`: the booking
row (with relations) spread together with the computed `isExpired`. -/
structure ResolvedBooking where
  booking : Booking
  isExpired : Bool
deriving DecidableEq, Repr

/-- Models `BookingService.findByMeetingToken(meetingToken)`: resolve the
capability token; `NotFound` only when no booking carries the token,
otherwise the booking data with `isExpired = now > expiresAt`. -/
def findByMeetingToken (db : Db) (meetingToken : String) (now : Nat) :
    Except ApiError ResolvedBooking :=
  match db.findBookingByToken meetingToken with
  | none =>
      .error (.notFound
        ("Booking with meeting token " ++ meetingToken ++ " not found"))
  | some booking =>
      .ok { booking := booking, isExpired := decide (booking.expiresAt < now) }

/-- Number of SessionRecords with status `active` for a booking. -/
def Db.activeCount (db : Db) (bookingId : String) : Nat :=
  (db.sessions.filter
    (fun s => s.bookingId == bookingId && s.status == "active")).length

/-- All SessionRecords (any status) for a booking. -/
def Db.sessionsOf (db : Db) (bookingId : String) : List VoiceSession :=
  db.sessions.filter (fun s => s.bookingId == bookingId)

/-- Did the call raise a `GoneException`? -/
def raisedGone {α : Type} : Except ApiError α → Bool
  | .error e => e.isGone
  | .ok _ => false

/-- Did the call raise a `ServiceUnavailableException`? -/
def raisedUnavailable {α : Type} : Except ApiError α → Bool
  | .error e => e.isUnavailable
  | .ok _ => false

/-! Concrete exemplar rows and database states, used to instantiate the
theorems below on executable inputs. -/

/-- Exemplar agent row. -/
def wAgent : Agent := { id := "a1", name := "Ava", knowledge := none }

/-- Exemplar lead row. -/
def wLead : Lead := { name := "Lee", email := "lee@example.com" }

/-- Exemplar booking, expiring at time 100. -/
def wBooking : Booking :=
  { id := "b1", expiresAt := 100, status := .CONFIRMED,
    meetingToken := "tok1", agent := wAgent, lead := wLead }

/-- Exemplar booking whose link expired at time 10. -/
def wExpiredBooking : Booking := { wBooking with expiresAt := 10 }

/-- Exemplar cancelled booking. -/
def wCancelledBooking : Booking := { wBooking with status := .CANCELLED }

/-- Exemplar active VoiceSession for `wBooking`, with captured data. -/
def wSession : VoiceSession :=
  { id := "v1", bookingId := "b1", sessionId := "r1",
    livekitRoomName := "room1", status := "active",
    transcript := some "hello", durationSeconds := some 42,
    endedAt := none, metadata := none }

/-- Exemplar completed VoiceSession for `wBooking`. -/
def wDoneSession : VoiceSession := { wSession with status := "completed" }

/-- Exemplar database: `wBooking` with active session `wSession`. -/
def wDb : Db := { bookings := [wBooking], sessions := [wSession] }

/-- Exemplar database: `wBooking` with no session. -/
def wDbEmpty : Db := { bookings := [wBooking], sessions := [] }

/-- Exemplar database: `wExpiredBooking` with no session. -/
def wDbExpired : Db := { bookings := [wExpiredBooking], sessions := [] }

/-- Exemplar database: `wCancelledBooking` with active session `wSession`. -/
def wDbCancelled : Db :=
  { bookings := [wCancelledBooking], sessions := [wSession] }

/-- Exemplar database: `wBooking` with completed session `wDoneSession`. -/
def wDbDone : Db := { bookings := [wBooking], sessions := [wDoneSession] }

/-- Exemplar remote create-session response. -/
def wPy : PythonSessionResponse :=
  { session_id := "r2", room_name := "room2", participant_token := "ptok2" }

/-! ## Helper lemmas about the relational operations -/

/-- Mapping a function that does not change the search predicate commutes
with `find?`. -/
theorem find?_map_pres {α : Type} (p : α → Bool) (f : α → α)
    (hf : ∀ a, p (f a) = p a) (l : List α) :
    (l.map f).find? p = (l.find? p).map f := by
  induction l with
  | nil => rfl
  | cons a l ih =>
    rw [List.map_cons, List.find?_cons, List.find?_cons, hf a]
    cases h : p a
    · simpa using ih
    · rfl

/-- Looking a booking up after updating its status finds the updated row. -/
theorem Db.findBooking_update_self (db : Db) (bid : String)
    (st : BookingStatus) (bk : Booking)
    (hb : db.findBooking bid = some bk) :
    (db.updateBookingStatus bid st).findBooking bid =
      some { bk with status := st } := by
  have hb2 : db.bookings.find? (fun b => b.id == bid) = some bk := hb
  have hid : (bk.id == bid) = true := by simpa using List.find?_some hb2
  have hmap := find?_map_pres (fun b : Booking => b.id == bid)
    (fun b => if b.id == bid then { b with status := st } else b)
    (fun b => by by_cases h : (b.id == bid) = true <;> simp [h]) db.bookings
  unfold Db.updateBookingStatus Db.findBooking
  rw [hmap]
  unfold Db.findBooking at hb
  rw [hb]
  have heq : bk.id = bid := eq_of_beq hid
  simp [heq]

/-- Looking a session up after updating it finds the updated row, for any
update that does not change the row id. -/
theorem Db.findSession_update_self (db : Db) (sid : String)
    (f : VoiceSession → VoiceSession) (hid : ∀ s, (f s).id = s.id)
    (vs : VoiceSession) (hs : db.findSession sid = some vs) :
    (db.updateSession sid f).findSession sid = some (f vs) := by
  have hs2 : db.sessions.find? (fun s => s.id == sid) = some vs := hs
  have hvid : (vs.id == sid) = true := by simpa using List.find?_some hs2
  have hmap := find?_map_pres (fun s : VoiceSession => s.id == sid)
    (fun s => if s.id == sid then f s else s)
    (fun s => by by_cases h : (s.id == sid) = true <;> simp [h, hid]) db.sessions
  unfold Db.updateSession Db.findSession
  rw [hmap]
  unfold Db.findSession at hs
  rw [hs]
  have heq : vs.id = sid := eq_of_beq hvid
  simp [heq]

/-- Deleting a booking's only SessionRecord and inserting a fresh one
for the same booking leaves the fresh record as the booking's only
SessionRecord. -/
theorem sessionsOf_delete_insert (db : Db) (bookingId : String)
    (vs new : VoiceSession) (hnew : (new.bookingId == bookingId) = true)
    (huniq : db.sessionsOf bookingId = [vs]) :
    ((db.deleteSession vs.id).insertSession new).sessionsOf bookingId =
      [new] := by
  unfold Db.sessionsOf Db.deleteSession Db.insertSession
  unfold Db.sessionsOf at huniq
  dsimp only
  rw [List.filter_append]
  have h2 : (db.sessions.filter (fun s => !(s.id == vs.id))).filter
      (fun s => s.bookingId == bookingId) = [] := by
    rw [List.filter_filter]
    rw [List.filter_congr
      (fun x _ => Bool.and_comm (x.bookingId == bookingId) (!(x.id == vs.id)))]
    rw [← List.filter_filter, huniq]
    simp
  rw [h2]
  simp [hnew]

/-! ## Claim theorems -/

/-- C1: for a booking with an unexpired link that already has a
SessionRecord, when the liveness probe answers ok with `active = true`,
`startVoiceSession` fails with `Conflict` and returns the database
unchanged — for every possible create-oracle outcome, since the create
request is never issued — so no second SessionRecord (in particular no
second active one) appears for the booking. -/
theorem start_conflict_when_live (db : Db) (bookingId : String) (now : Nat)
    (create : RemoteCall PythonSessionResponse) (freshId : String)
    (booking : Booking) (vs : VoiceSession)
    (hb : db.findBooking bookingId = some booking)
    (hexp : ¬ booking.expiresAt < now)
    (hvs : db.sessionOfBooking bookingId = some vs) :
    startVoiceSession db bookingId now (.ok true) create freshId =
      (.error (.conflict "Voice session already active for this booking"),
       db) ∧
    (db.activeCount bookingId ≤ 1 →
      (startVoiceSession db bookingId now
          (.ok true) create freshId).2.activeCount bookingId ≤ 1) := by
  have h1 : startVoiceSession db bookingId now (.ok true) create freshId =
      (.error (.conflict "Voice session already active for this booking"),
       db) := by
    unfold startVoiceSession staleSessionCheck
    simp only [hb, if_neg hexp, hvs]
  exact ⟨h1, fun h => by rw [h1]; exact h⟩

/-- Witness for C1: on the exemplar database the second start call
returns `Conflict` and leaves the state untouched. -/
theorem start_conflict_when_live_witness :
    startVoiceSession wDb "b1" 50 (.ok true) (.ok wPy) "v2" =
      (.error (.conflict "Voice session already active for this booking"),
       wDb) :=
  (start_conflict_when_live wDb "b1" 50 (.ok wPy) "v2" wBooking wSession
    rfl (by decide) rfl).1

/-- C2: for a booking with an unexpired link and an existing
SessionRecord, when the liveness probe does not confirm the remote
session live (ok-but-inactive, non-ok response, or probe network
failure) and the remote create succeeds, `startVoiceSession` succeeds
and its final state is literally delete-stale-then-insert-fresh; when
the stale record was the booking's only SessionRecord, exactly the
fresh record remains for the booking — so two sequential starts with
the first session reported absent both succeed and leave one record. -/
theorem start_stale_deleted_then_recreated (db : Db) (bookingId : String)
    (now : Nat) (probe : RemoteCall Bool) (data : PythonSessionResponse)
    (freshId : String) (booking : Booking) (vs : VoiceSession)
    (hb : db.findBooking bookingId = some booking)
    (hexp : ¬ booking.expiresAt < now)
    (hvs : db.sessionOfBooking bookingId = some vs)
    (hnotlive : probe ≠ .ok true) :
    startVoiceSession db bookingId now probe (.ok data) freshId =
      (Except.ok { roomToken := data.participant_token,
                   roomUrl := data.room_name, sessionId := freshId,
                   roomName := data.room_name },
       (db.deleteSession vs.id).insertSession
         (createdSession booking bookingId freshId data)) ∧
    (db.sessionsOf bookingId = [vs] →
      (startVoiceSession db bookingId now probe
          (.ok data) freshId).2.sessionsOf bookingId =
        [createdSession booking bookingId freshId data]) := by
  have h1 : startVoiceSession db bookingId now probe (.ok data) freshId =
      (Except.ok { roomToken := data.participant_token,
                   roomUrl := data.room_name, sessionId := freshId,
                   roomName := data.room_name },
       (db.deleteSession vs.id).insertSession
         (createdSession booking bookingId freshId data)) := by
    unfold startVoiceSession staleSessionCheck createRemoteAndPersist
    rcases probe with b | _ | _
    · cases b
      · simp only [hb, if_neg hexp, hvs]
      · exact absurd rfl hnotlive
    · simp only [hb, if_neg hexp, hvs]
    · simp only [hb, if_neg hexp, hvs]
  refine ⟨h1, fun huniq => ?_⟩
  rw [h1]
  exact sessionsOf_delete_insert db bookingId vs
    (createdSession booking bookingId freshId data)
    (beq_self_eq_true bookingId) huniq

/-- Witness for C2: on the exemplar database, a start finding the stale
session reported absent (non-ok probe) succeeds and leaves exactly the
fresh record for the booking. -/
theorem start_stale_deleted_then_recreated_witness :
    (startVoiceSession wDb "b1" 50 .httpError
        (.ok wPy) "v2").2.sessionsOf "b1" =
      [createdSession wBooking "b1" "v2" wPy] :=
  (start_stale_deleted_then_recreated wDb "b1" 50 .httpError wPy "v2"
    wBooking wSession rfl (by decide) rfl (by decide)).2 rfl

/-- C3: ending an existing SessionRecord always succeeds, marks the
record `completed` with an end timestamp, and sets the owning booking's
status to `COMPLETED`, for every outcome of the remote end call —
success, non-ok response, or network failure. -/
theorem end_session_always_completes (db : Db) (sid : String) (now : Nat)
    (remoteEnd : RemoteCall RemoteSessionEnd) (vs : VoiceSession)
    (bk : Booking)
    (hs : db.findSession sid = some vs)
    (hb : db.findBooking vs.bookingId = some bk) :
    (∃ res, (endVoiceSession db sid now remoteEnd).1 = Except.ok res) ∧
    (∃ fin, (endVoiceSession db sid now remoteEnd).2.findSession sid =
        some fin ∧ fin.status = "completed" ∧ fin.endedAt = some now) ∧
    (endVoiceSession db sid now remoteEnd).2.findBooking vs.bookingId =
      some { bk with status := BookingStatus.COMPLETED } := by
  unfold endVoiceSession
  simp only [hs]
  refine ⟨⟨_, rfl⟩, ?_, ?_⟩
  · exact ⟨completeSessionRow now _ _ vs,
      Db.findSession_update_self db sid (completeSessionRow now _ _)
        (fun s => rfl) vs hs,
      rfl, rfl⟩
  · exact Db.findBooking_update_self _ vs.bookingId BookingStatus.COMPLETED
      bk hb

/-- Witness for C3: ending the exemplar session with the remote provider
unreachable still completes the record and the booking. -/
theorem end_session_always_completes_witness :
    (∃ res, (endVoiceSession wDb "v1" 77 .netError).1 = Except.ok res) ∧
    (∃ fin, (endVoiceSession wDb "v1" 77 .netError).2.findSession "v1" =
        some fin ∧ fin.status = "completed" ∧ fin.endedAt = some 77) ∧
    (endVoiceSession wDb "v1" 77 .netError).2.findBooking "b1" =
      some { wBooking with status := BookingStatus.COMPLETED } :=
  end_session_always_completes wDb "v1" 77 .netError wSession wBooking
    rfl rfl

/-- C10: `endVoiceSession` sets the owning booking's status to
`COMPLETED` unconditionally — the booking's prior status, `CANCELLED`
and `EXPIRED` included, is never consulted. -/
theorem end_overwrites_any_booking_status (db : Db) (sid : String)
    (now : Nat) (remoteEnd : RemoteCall RemoteSessionEnd)
    (vs : VoiceSession) (bk : Booking)
    (hs : db.findSession sid = some vs)
    (hb : db.findBooking vs.bookingId = some bk) :
    (endVoiceSession db sid now remoteEnd).2.findBooking vs.bookingId =
      some { bk with status := BookingStatus.COMPLETED } := by
  unfold endVoiceSession
  simp only [hs]
  exact Db.findBooking_update_self _ vs.bookingId BookingStatus.COMPLETED
    bk hb

/-- Witness for C10: ending the session of a booking that is already
`CANCELLED` silently moves the booking to `COMPLETED`. -/
theorem end_overwrites_any_booking_status_witness :
    (endVoiceSession wDbCancelled "v1" 77
        (.ok { success := true, transcript := some "bye",
               duration := some 9 })).2.findBooking "b1" =
      some { wCancelledBooking with status := BookingStatus.COMPLETED } :=
  end_overwrites_any_booking_status wDbCancelled "v1" 77
    (.ok { success := true, transcript := some "bye", duration := some 9 })
    wSession wCancelledBooking rfl rfl

/-- C4 counterexample: joining the exemplar booking after its link
expired (expiry time 10, now 200) yields the same `NotFound` error as a
non-existent booking — not a distinct `Gone` error. -/
theorem start_expired_yields_notFound_not_gone :
    (startVoiceSession wDbExpired "b1" 200 .netError .netError "v9").1 =
      Except.error (.notFound "Booking not found or expired") ∧
    raisedGone
      (startVoiceSession wDbExpired "b1" 200 .netError .netError "v9").1 =
      false :=
  ⟨rfl, rfl⟩

/-- C4 amended: the re-validation fails with the same `NotFound` error
("Booking not found or expired") both when the booking does not exist
and when its expiry time has passed — no distinct `Gone` error is
surfaced — while a booking joined before expiry passes the
re-validation: with no existing session and a successful remote create,
the start succeeds. -/
theorem start_revalidation (db : Db) (bookingId : String) (now : Nat)
    (probe : RemoteCall Bool) (create : RemoteCall PythonSessionResponse)
    (freshId : String) :
    (db.findBooking bookingId = none →
      startVoiceSession db bookingId now probe create freshId =
        (.error (.notFound "Booking not found or expired"), db)) ∧
    (∀ booking, db.findBooking bookingId = some booking →
      booking.expiresAt < now →
      startVoiceSession db bookingId now probe create freshId =
        (.error (.notFound "Booking not found or expired"), db)) ∧
    (∀ booking data, db.findBooking bookingId = some booking →
      ¬ booking.expiresAt < now →
      db.sessionOfBooking bookingId = none →
      startVoiceSession db bookingId now probe (.ok data) freshId =
        (Except.ok { roomToken := data.participant_token,
                     roomUrl := data.room_name, sessionId := freshId,
                     roomName := data.room_name },
         db.insertSession
           (createdSession booking bookingId freshId data))) := by
  refine ⟨?_, ?_, ?_⟩
  · intro hnone
    unfold startVoiceSession
    simp only [hnone]
  · intro booking hb hlt
    unfold startVoiceSession
    simp only [hb, if_pos hlt]
  · intro booking data hb hexp hnone
    unfold startVoiceSession staleSessionCheck createRemoteAndPersist
    simp only [hb, if_neg hexp, hnone]

/-- Witness for C4 (amended): joining the unexpired exemplar booking at
time 50 passes re-validation and the start succeeds. -/
theorem start_revalidation_witness :
    startVoiceSession wDbEmpty "b1" 50 (.ok false) (.ok wPy) "v2" =
      (Except.ok { roomToken := "ptok2", roomUrl := "room2",
                   sessionId := "v2", roomName := "room2" },
       wDbEmpty.insertSession (createdSession wBooking "b1" "v2" wPy)) :=
  (start_revalidation wDbEmpty "b1" 50 (.ok false) (.ok wPy) "v2").2.2
    wBooking wPy rfl (by decide) rfl

/-- C5 counterexample: with the exemplar booking and no prior session, a
network failure of the remote create surfaces `InternalServerError`, not
`Unavailable` (the state is still unchanged). -/
theorem start_create_network_failure_not_unavailable :
    startVoiceSession wDbEmpty "b1" 50 .netError .netError "v2" =
      (Except.error (.internalServerError
        "Failed to start voice session. Check logs."), wDbEmpty) ∧
    raisedUnavailable
      (startVoiceSession wDbEmpty "b1" 50 .netError .netError "v2").1 =
      false :=
  ⟨rfl, rfl⟩

/-- C5 amended: a failed remote create never creates a SessionRecord —
the final state is exactly the state left by the stale-record step (the
whole database when no prior record existed, delete-of-the-stale-record
otherwise) — but only the non-ok response surfaces `Unavailable`; a
network failure or timeout of the create call surfaces
`InternalServerError`. -/
theorem start_failed_create_no_record (db : Db) (bookingId : String)
    (now : Nat) (probe : RemoteCall Bool) (freshId : String)
    (booking : Booking)
    (hb : db.findBooking bookingId = some booking)
    (hexp : ¬ booking.expiresAt < now) :
    (db.sessionOfBooking bookingId = none →
      startVoiceSession db bookingId now probe .httpError freshId =
        (.error (.serviceUnavailable
          "Python voice agent service unavailable. Please try again."),
         db) ∧
      startVoiceSession db bookingId now probe .netError freshId =
        (.error (.internalServerError
          "Failed to start voice session. Check logs."), db)) ∧
    (∀ vs, db.sessionOfBooking bookingId = some vs → probe ≠ .ok true →
      startVoiceSession db bookingId now probe .httpError freshId =
        (.error (.serviceUnavailable
          "Python voice agent service unavailable. Please try again."),
         db.deleteSession vs.id) ∧
      startVoiceSession db bookingId now probe .netError freshId =
        (.error (.internalServerError
          "Failed to start voice session. Check logs."),
         db.deleteSession vs.id)) := by
  constructor
  · intro hnone
    constructor <;>
      (unfold startVoiceSession staleSessionCheck createRemoteAndPersist
       simp only [hb, if_neg hexp, hnone])
  · intro vs hvs hnotlive
    constructor <;>
      (unfold startVoiceSession staleSessionCheck createRemoteAndPersist
       rcases probe with b | _ | _
       · cases b
         · simp only [hb, if_neg hexp, hvs]
         · exact absurd rfl hnotlive
       · simp only [hb, if_neg hexp, hvs]
       · simp only [hb, if_neg hexp, hvs])

/-- Witness for C5 (amended): a non-ok create response on the exemplar
empty state surfaces `Unavailable` and leaves the state unchanged. -/
theorem start_failed_create_no_record_witness :
    startVoiceSession wDbEmpty "b1" 50 (.ok false) .httpError "v2" =
      (.error (.serviceUnavailable
        "Python voice agent service unavailable. Please try again."),
       wDbEmpty) :=
  ((start_failed_create_no_record wDbEmpty "b1" 50 (.ok false) "v2"
    wBooking rfl (by decide)).1 rfl).1

/-- C6: resolving a meeting token fails with `NotFound` only when no
booking carries the token; a booking that exists is always returned
(the call succeeds), and when it is expired it comes back with
`isExpired = true` rather than `NotFound`. -/
theorem resolve_token_expired_not_notFound (db : Db) (token : String)
    (now : Nat) :
    (db.findBookingByToken token = none →
      findByMeetingToken db token now =
        .error (.notFound
          ("Booking with meeting token " ++ token ++ " not found"))) ∧
    (∀ b, db.findBookingByToken token = some b →
      (findByMeetingToken db token now).isOk = true ∧
      (b.expiresAt < now →
        findByMeetingToken db token now =
          .ok { booking := b, isExpired := true })) := by
  constructor
  · intro hnone
    unfold findByMeetingToken
    simp only [hnone]
  · intro b hb
    constructor
    · unfold findByMeetingToken
      simp only [hb]
      rfl
    · intro hlt
      unfold findByMeetingToken
      simp only [hb, decide_eq_true hlt]

/-- Witness for C6: resolving the expired exemplar booking's token at
time 200 returns its data flagged expired instead of failing. -/
theorem resolve_token_expired_witness :
    findByMeetingToken wDbExpired "tok1" 200 =
      .ok { booking := wExpiredBooking, isExpired := true } :=
  ((resolve_token_expired_not_notFound wDbExpired "tok1" 200).2
    wExpiredBooking rfl).2 (by decide)

/-- C7: `getActiveSessionByBooking` fails with `NotFound` exactly when
the booking has no SessionRecord with status `active`; when one exists
and the remote provider cannot issue a rejoin credential (non-ok
response or network failure), it returns the record's metadata flagged
`needsRestart` instead of failing. -/
theorem get_active_notFound_iff_needsRestart (db : Db)
    (bookingId : String) (rejoinTok : RemoteCall String) :
    (getActiveSessionByBooking db bookingId rejoinTok =
        .error (.notFound "No active voice session found for this booking")
      ↔ db.activeSessionOfBooking bookingId = none) ∧
    (∀ vs, db.activeSessionOfBooking bookingId = some vs →
      getActiveSessionByBooking db bookingId .httpError =
        .ok (.needsRestart vs.id vs.livekitRoomName vs.status) ∧
      getActiveSessionByBooking db bookingId .netError =
        .ok (.needsRestart vs.id vs.livekitRoomName vs.status)) := by
  constructor
  · constructor
    · intro h
      cases hv : db.activeSessionOfBooking bookingId with
      | none => rfl
      | some vs =>
        exfalso
        unfold getActiveSessionByBooking at h
        rw [hv] at h
        rcases rejoinTok with t | _ | _ <;> simp at h
    · intro h
      unfold getActiveSessionByBooking
      simp only [h]
  · intro vs hv
    constructor <;>
      (unfold getActiveSessionByBooking
       simp only [hv])

/-- Witness for C7: on the exemplar state a non-ok rejoin-token response
yields the `needsRestart` fallback rather than an error. -/
theorem get_active_notFound_iff_needsRestart_witness :
    getActiveSessionByBooking wDb "b1" .httpError =
      .ok (.needsRestart "v1" "room1" "active") :=
  ((get_active_notFound_iff_needsRestart wDb "b1" .httpError).2
    wSession rfl).1

/-- The completion update never replaces a non-empty stored transcript
or a non-zero stored duration with an empty value: an empty incoming
transcript or zero incoming duration falls back to the stored column. -/
theorem completeSessionRow_preserves_captured (now : Nat) (c : String)
    (d0 : Nat) (vs : VoiceSession) :
    (∀ t, vs.transcript = some t → t ≠ "" →
      ∃ u, (completeSessionRow now c d0 vs).transcript = some u ∧
        u ≠ "") ∧
    (∀ d, vs.durationSeconds = some d → d ≠ 0 →
      ∃ e, (completeSessionRow now c d0 vs).durationSeconds = some e ∧
        e ≠ 0) := by
  constructor
  · intro t ht htne
    unfold completeSessionRow
    by_cases hc : c = ""
    · exact ⟨t, by simp [hc, ht], htne⟩
    · exact ⟨c, by simp [hc], hc⟩
  · intro d hd hdne
    unfold completeSessionRow
    by_cases hz : d0 = 0
    · exact ⟨d, by simp [hz, hd], hdne⟩
    · exact ⟨d0, by simp [hz], hz⟩

/-- C8: ending an already-completed SessionRecord never overwrites a
previously captured non-empty transcript or non-zero duration with
empty values: whatever the remote end call returns, the updated row
still carries a non-empty transcript and a non-zero duration when the
stored ones were. -/
theorem end_never_overwrites_captured (db : Db) (sid : String)
    (now : Nat) (remoteEnd : RemoteCall RemoteSessionEnd)
    (vs : VoiceSession)
    (hs : db.findSession sid = some vs)
    (_hst : vs.status = "completed") :
    ∃ fin, (endVoiceSession db sid now remoteEnd).2.findSession sid =
        some fin ∧
      (∀ t, vs.transcript = some t → t ≠ "" →
        ∃ u, fin.transcript = some u ∧ u ≠ "") ∧
      (∀ d, vs.durationSeconds = some d → d ≠ 0 →
        ∃ e, fin.durationSeconds = some e ∧ e ≠ 0) := by
  unfold endVoiceSession
  simp only [hs]
  exact ⟨completeSessionRow now _ _ vs,
    Db.findSession_update_self db sid (completeSessionRow now _ _)
      (fun s => rfl) vs hs,
    (completeSessionRow_preserves_captured now _ _ vs).1,
    (completeSessionRow_preserves_captured now _ _ vs).2⟩

/-- Witness for C8: re-ending the exemplar completed session with the
remote reporting empty results keeps the stored transcript "hello" and
duration 42 non-empty. -/
theorem end_never_overwrites_captured_witness :
    ∃ fin, (endVoiceSession wDbDone "v1" 77
        (.ok { success := true, transcript := some "",
               duration := some 0 })).2.findSession "v1" = some fin ∧
      (∀ t, wDoneSession.transcript = some t → t ≠ "" →
        ∃ u, fin.transcript = some u ∧ u ≠ "") ∧
      (∀ d, wDoneSession.durationSeconds = some d → d ≠ 0 →
        ∃ e, fin.durationSeconds = some e ∧ e ≠ 0) :=
  end_never_overwrites_captured wDbDone "v1" 77
    (.ok { success := true, transcript := some "", duration := some 0 })
    wDoneSession rfl rfl

/-- C9 counterexample: on the exemplar state, a network failure of the
remote status call surfaces `InternalServerError`, not `Unavailable`. -/
theorem status_network_failure_not_unavailable :
    getSessionStatus wDb "v1" .netError =
      .error (.internalServerError
        "Failed to get session status. Check logs.") ∧
    raisedUnavailable (getSessionStatus wDb "v1" .netError) = false :=
  ⟨rfl, rfl⟩

/-- C9 amended: `getSessionStatus` fails with `NotFound` when no record
has the id; with the record present, a non-ok remote response surfaces
`Unavailable` (distinct from `NotFound`) but a network failure of the
call surfaces `InternalServerError`; on success the remote-reported
active flag, duration, and partial transcript are returned alongside
the locally stored status. -/
theorem session_status_spec (db : Db) (sid : String)
    (remoteStatus : RemoteCall RemoteSessionStatus) :
    (db.findSession sid = none →
      getSessionStatus db sid remoteStatus =
        .error (.notFound "Voice session not found")) ∧
    (∀ vs, db.findSession sid = some vs →
      getSessionStatus db sid .httpError =
        .error (.serviceUnavailable
          "Python voice agent service unavailable. Please try again.") ∧
      getSessionStatus db sid .netError =
        .error (.internalServerError
          "Failed to get session status. Check logs.") ∧
      (∀ data, getSessionStatus db sid (.ok data) =
        .ok { active := data.active, duration := data.duration_seconds,
              transcript := data.transcriptSoFar,
              status := vs.status })) := by
  constructor
  · intro h
    unfold getSessionStatus
    simp only [h]
  · intro vs hv
    refine ⟨?_, ?_, ?_⟩
    · unfold getSessionStatus
      simp only [hv]
    · unfold getSessionStatus
      simp only [hv]
    · intro data
      unfold getSessionStatus
      simp only [hv]

/-- Witness for C9 (amended): a non-ok status response on the exemplar
session surfaces `Unavailable`. -/
theorem session_status_spec_witness :
    getSessionStatus wDb "v1" .httpError =
      .error (.serviceUnavailable
        "Python voice agent service unavailable. Please try again.") :=
  ((session_status_spec wDb "v1" .httpError).2 wSession rfl).1

end Veezy
